import Mathlib

/-!
# Verification of the `lava_api` client library

A shallow embedding of `src/lava_api/business.py` (class `LavaBusinessAPI`),
together with theorems settling the specification claims about it.

Modelled domain: JSON values appearing in field maps are scalars
(null / bool / int / string) or lists of strings, matching the spec's
FieldMap description ("mapping from string key to scalar or list-of-string
value").  IEEE floating-point payload *values* are outside the model (their
serialization is out of scope); the success/failure behaviour of Python's
`float()` coercion is modelled explicitly where a claim depends on it.
Python dictionaries are modelled as insertion-ordered association lists;
Python `None` is identified with JSON null (`JValue.jnull`), exactly as in
the Python runtime, where a JSON null in a parsed body *is* `None`.
-/

/-- A JSON scalar or list-of-strings value, as stored in a Python dict
parsed from JSON.  `jnull` doubles as Python `None`. -/
inductive JValue where
  | jnull
  | jbool (b : Bool)
  | jint (n : Int)
  | jstr (s : String)
  | jarrs (elems : List String)
deriving DecidableEq

/-- A field map: a Python dict as an insertion-ordered association list. -/
abbrev FieldMap := List (String × JValue)

/-- A top-level value of the gateway's JSON *response*: either a scalar/list
value or a nested JSON object (`data` / `error` are objects). -/
inductive RValue where
  | rj (v : JValue)
  | robj (fields : List (String × JValue))
deriving DecidableEq

/-- Python dict lookup `d[k]` / `k in d`, first (unique) matching key. -/
def dlookup {α : Type} : List (String × α) → String → Option α
  | [], _ => none
  | (k, v) :: rest, key => if k = key then some v else dlookup rest key

/-- Python `d.get(k, default)`: the stored value when the key is present,
otherwise the default.  (A stored JSON null is returned as `jnull`, i.e.
Python `None`, not the default — exactly as in Python.) -/
def dget {α : Type} (d : List (String × α)) (k : String) (default : α) : α :=
  (dlookup d k).getD default

/-- Decimal digits, least significant first, with explicit fuel (so the
definition is structurally recursive and kernel-reducible); any
`fuel ≥ n` yields the digits of `n`, and `n = 0` yields `[]`. -/
def natDigitsAux : Nat → Nat → List Char
  | _, 0 => []
  | 0, _ + 1 => []
  | fuel + 1, n + 1 => Char.ofNat (48 + (n + 1) % 10) :: natDigitsAux fuel ((n + 1) / 10)

/-- Decimal digits of a positive number, least significant first. -/
def natDigitsRevAux (n : Nat) : List Char := natDigitsAux n n

/-- Python `repr` of a non-negative integer (decimal, no padding). -/
def natRepr (n : Nat) : String :=
  if n = 0 then "0" else String.mk (natDigitsRevAux n).reverse

/-- Python `repr` of an integer, as emitted by `json.dumps` for `int`. -/
def intRepr : Int → String
  | .ofNat m => natRepr m
  | .negSucc m => "-" ++ natRepr (m + 1)

/-- The sixteen lowercase hex digits, indexed by nibble value. -/
def nibbleChar : Nat → Char
  | 0 => '0' | 1 => '1' | 2 => '2' | 3 => '3'
  | 4 => '4' | 5 => '5' | 6 => '6' | 7 => '7'
  | 8 => '8' | 9 => '9' | 10 => 'a' | 11 => 'b'
  | 12 => 'c' | 13 => 'd' | 14 => 'e' | _ => 'f'

/-- Lowercase hex digit of `n % 16`. -/
def hexNibble (n : Nat) : Char := nibbleChar (n % 16)

/-- Four lowercase hex digits of a value below 2^16 (`\uXXXX` bodies). -/
def hex4 (n : Nat) : List Char :=
  [hexNibble (n / 4096), hexNibble (n / 256), hexNibble (n / 16), hexNibble n]

/-- How Python's `json.dumps` (default `ensure_ascii=True`) renders one
character inside a JSON string: printable ASCII passes through, the
two-character escapes are used for the usual control characters, and
everything outside `0x20..0x7e` becomes `\uXXXX` (astral code points as a
surrogate pair). -/
def jsonEscapeChar (c : Char) : List Char :=
  if c = '"' then ['\\', '"']
  else if c = '\\' then ['\\', '\\']
  else if c = '\n' then ['\\', 'n']
  else if c = '\r' then ['\\', 'r']
  else if c = '\t' then ['\\', 't']
  else if c.toNat = 8 then ['\\', 'b']
  else if c.toNat = 12 then ['\\', 'f']
  else if c.toNat < 32 then '\\' :: 'u' :: hex4 c.toNat
  else if c.toNat < 127 then [c]
  else if c.toNat < 65536 then '\\' :: 'u' :: hex4 c.toNat
  else
    let m := c.toNat - 65536
    ('\\' :: 'u' :: hex4 (55296 + m / 1024)) ++ ('\\' :: 'u' :: hex4 (56320 + m % 1024))

/-- `json.dumps` rendering of a string, quotes included. -/
def jsonDumpsString (s : String) : String :=
  "\"" ++ String.mk ((s.toList.map jsonEscapeChar).flatten) ++ "\""

/-- `json.dumps` rendering of one scalar/list value. -/
def jsonDumpsValue : JValue → String
  | .jnull => "null"
  | .jbool true => "true"
  | .jbool false => "false"
  | .jint n => intRepr n
  | .jstr s => jsonDumpsString s
  | .jarrs elems =>
      "[" ++ String.intercalate "," (elems.map jsonDumpsString) ++ "]"

/-- `json.dumps(d, separators=(',', ':'))` of a dict whose entries are in the
given order: a compact JSON object with no whitespace after `:` or `,`. -/
def jsonDumpsCompact (d : FieldMap) : String :=
  "\x7b" ++ String.intercalate ","
    (d.map (fun kv => jsonDumpsString kv.1 ++ ":" ++ jsonDumpsValue kv.2)) ++ "\x7d"

/-- UTF-8 encoding of one Unicode scalar value, as a list of byte values. -/
def utf8Char (c : Char) : List Nat :=
  let n := c.toNat
  if n < 128 then [n]
  else if n < 2048 then [192 + n / 64, 128 + n % 64]
  else if n < 65536 then [224 + n / 4096, 128 + n / 64 % 64, 128 + n % 64]
  else [240 + n / 262144, 128 + n / 4096 % 64, 128 + n / 64 % 64, 128 + n % 64]

/-- `str.encode("utf-8")`: the UTF-8 bytes of a string. -/
def utf8Bytes (s : String) : List Nat :=
  (s.toList.map utf8Char).flatten

/-! ## SHA-256 and HMAC (`hashlib.sha256`, `hmac.new(..., digestmod=hashlib.sha256)`)

Machine words are `Nat` with explicit reduction modulo 2^32; bytes are `Nat`
below 256. -/

/-- Reduction of a word to 32 bits. -/
def w32 (n : Nat) : Nat := n % 4294967296

/-- 32-bit addition. -/
def add32 (a b : Nat) : Nat := w32 (a + b)

/-- Right rotation of a 32-bit word by `k` (for `0 < k < 32`). -/
def rotr32 (x k : Nat) : Nat := w32 ((x >>> k) ||| (x <<< (32 - k)))

/-- Bitwise complement of a 32-bit word. -/
def not32 (x : Nat) : Nat := x ^^^ 4294967295

/-- SHA-256 `Ch(e, f, g)`. -/
def shaCh (e f g : Nat) : Nat := (e &&& f) ^^^ (not32 e &&& g)

/-- SHA-256 `Maj(a, b, c)`. -/
def shaMaj (a b c : Nat) : Nat := (a &&& b) ^^^ (a &&& c) ^^^ (b &&& c)

/-- SHA-256 `Σ0`. -/
def bigSigma0 (x : Nat) : Nat := rotr32 x 2 ^^^ rotr32 x 13 ^^^ rotr32 x 22

/-- SHA-256 `Σ1`. -/
def bigSigma1 (x : Nat) : Nat := rotr32 x 6 ^^^ rotr32 x 11 ^^^ rotr32 x 25

/-- SHA-256 `σ0`. -/
def smallSigma0 (x : Nat) : Nat := rotr32 x 7 ^^^ rotr32 x 18 ^^^ (x >>> 3)

/-- SHA-256 `σ1`. -/
def smallSigma1 (x : Nat) : Nat := rotr32 x 17 ^^^ rotr32 x 19 ^^^ (x >>> 10)

/-- The 64 SHA-256 round constants. -/
def sha256K : List Nat :=
  [1116352408, 1899447441, 3049323471, 3921009573,
   961987163, 1508970993, 2453635748, 2870763221,
   3624381080, 310598401, 607225278, 1426881987,
   1925078388, 2162078206, 2614888103, 3248222580,
   3835390401, 4022224774, 264347078, 604807628,
   770255983, 1249150122, 1555081692, 1996064986,
   2554220882, 2821834349, 2952996808, 3210313671,
   3336571891, 3584528711, 113926993, 338241895,
   666307205, 773529912, 1294757372, 1396182291,
   1695183700, 1986661051, 2177026350, 2456956037,
   2730485921, 2820302411, 3259730800, 3345764771,
   3516065817, 3600352804, 4094571909, 275423344,
   430227734, 506948616, 659060556, 883997877,
   958139571, 1322822218, 1537002063, 1747873779,
   1955562222, 2024104815, 2227730452, 2361852424,
   2428436474, 2756734187, 3204031479, 3329325298]

/-- The SHA-256 initial hash value. -/
def sha256H0 : List Nat :=
  [1779033703, 3144134277, 1013904242, 2773480762,
   1359893119, 2600822924, 528734635, 1541459225]

/-- One message-schedule extension step: append
`σ1(w[t-2]) + w[t-7] + σ0(w[t-15]) + w[t-16]` (mod 2^32). -/
def scheduleStep (w : List Nat) : List Nat :=
  let t := w.length
  w ++ [w32 (smallSigma1 (w.getD (t - 2) 0) + w.getD (t - 7) 0 +
             smallSigma0 (w.getD (t - 15) 0) + w.getD (t - 16) 0)]

/-- The full 64-word message schedule of one 16-word block. -/
def messageSchedule (block : List Nat) : List Nat :=
  (List.range 48).foldl (fun w _ => scheduleStep w) block

/-- One SHA-256 round on the working variables `[a,b,c,d,e,f,g,h]` with round
constant `k` and schedule word `w`. -/
def sha256Round (s : List Nat) (kw : Nat × Nat) : List Nat :=
  match s with
  | [a, b, c, d, e, f, g, h] =>
    let t1 := h + bigSigma1 e + shaCh e f g + kw.1 + kw.2
    let t2 := bigSigma0 a + shaMaj a b c
    [w32 (t1 + t2), a, b, c, w32 (d + t1), e, f, g]
  | other => other

/-- The SHA-256 compression function: 64 rounds, then addition of the input
state, on one 16-word block. -/
def sha256Compress (h : List Nat) (block : List Nat) : List Nat :=
  let ws := messageSchedule block
  let s := (sha256K.zip ws).foldl sha256Round h
  [add32 (h.getD 0 0) (s.getD 0 0), add32 (h.getD 1 0) (s.getD 1 0),
   add32 (h.getD 2 0) (s.getD 2 0), add32 (h.getD 3 0) (s.getD 3 0),
   add32 (h.getD 4 0) (s.getD 4 0), add32 (h.getD 5 0) (s.getD 5 0),
   add32 (h.getD 6 0) (s.getD 6 0), add32 (h.getD 7 0) (s.getD 7 0)]

/-- Chunking worker with explicit fuel (structurally recursive, so it
reduces in the kernel); any `fuel ≥ l.length` chunks all of `l`. -/
def chunksAux {α : Type} (n : Nat) : Nat → List α → List (List α)
  | _, [] => []
  | 0, _ :: _ => []
  | fuel + 1, x :: xs => ((x :: xs).take (n + 1)) :: chunksAux n fuel ((x :: xs).drop (n + 1))

/-- Split a list into chunks of `n + 1` elements (the last possibly short). -/
def chunksSucc {α : Type} (n : Nat) (l : List α) : List (List α) :=
  chunksAux n l.length l

/-- Big-endian bytes of a 32-bit word. -/
def wordBytesBE (w : Nat) : List Nat :=
  [(w >>> 24) % 256, (w >>> 16) % 256, (w >>> 8) % 256, w % 256]

/-- A big-endian byte group as one word. -/
def bytesToWordBE (l : List Nat) : Nat :=
  l.foldl (fun acc b => acc * 256 + b) 0

/-- 8-byte big-endian encoding of the bit length, for the padding block. -/
def lengthBytesBE (n : Nat) : List Nat :=
  [(n >>> 56) % 256, (n >>> 48) % 256, (n >>> 40) % 256, (n >>> 32) % 256,
   (n >>> 24) % 256, (n >>> 16) % 256, (n >>> 8) % 256, n % 256]

/-- SHA-256 padding: `0x80`, zeros to 56 mod 64, then the 64-bit bit length. -/
def sha256Pad (msg : List Nat) : List Nat :=
  msg ++ [128] ++ List.replicate ((120 - (msg.length + 1) % 64) % 64) 0 ++
    lengthBytesBE (8 * msg.length)

/-- SHA-256 of a byte list, as the 32-byte digest. -/
def sha256 (msg : List Nat) : List Nat :=
  let blocks := (chunksSucc 63 (sha256Pad msg)).map
    (fun blk => (chunksSucc 3 blk).map bytesToWordBE)
  ((blocks.foldl sha256Compress sha256H0).map wordBytesBE).flatten

/-- HMAC-SHA256 (`hmac.new(key, msg, hashlib.sha256)`), block size 64. -/
def hmacSha256 (key msg : List Nat) : List Nat :=
  let k0 := if 64 < key.length then sha256 key else key
  let kpad := k0 ++ List.replicate (64 - k0.length) 0
  let ipad := kpad.map (fun b => b ^^^ 54)
  let opad := kpad.map (fun b => b ^^^ 92)
  sha256 (opad ++ sha256 (ipad ++ msg))

/-- Two lowercase hex digits of a byte. -/
def byteHexChars (b : Nat) : List Char := [hexNibble (b / 16), hexNibble b]

/-- `digest.hexdigest()`: the digest bytes as a lowercase hex string. -/
def hexdigest (bytes : List Nat) : String :=
  String.mk ((bytes.map byteHexChars).flatten)

/-! ## `LavaBusinessAPI.generate_signature` -/

/-- The comparison used by `sorted(fields.items())`: Python sorts the entry
tuples, which for a dict (unique keys) orders by ordinal comparison of the
key strings; both Python and Lean compare strings lexicographically by code
point.  (On equal keys Python would compare the values; a dict never
presents equal keys, so the tie behaviour is unobservable.) -/
def fieldLE (a b : String × JValue) : Prop := a.1 ≤ b.1

instance : DecidableRel fieldLE := fun a b => inferInstanceAs (Decidable (a.1 ≤ b.1))

/-- `OrderedDict(sorted(fields.items()))`: the entries sorted ascending by
key. -/
def sortedFields (fields : FieldMap) : FieldMap :=
  List.insertionSort fieldLE fields

/-- `LavaBusinessAPI.generate_signature`: sort the fields by key, serialize
them as compact JSON (separators `(',', ':')`), and return the lowercase hex
digest of HMAC-SHA256 over the UTF-8 bytes, keyed by the UTF-8 bytes of the
secret key. -/
def generate_signature (secret_key : String) (fields : FieldMap) : String :=
  let odict := sortedFields fields
  let msg := jsonDumpsCompact odict
  (hexdigest (hmacSha256 (utf8Bytes secret_key) (utf8Bytes msg)))

/-! ## `LavaBusinessAPI.generate_random_order_id`

`datetime.datetime.now()` is modelled as an arbitrary Python datetime value
(`PyDateTime`); `random.randint(0, 9999)` as an arbitrary `Nat ≤ 9999`.
`%m %d %H %M %S` are zero-padded to two digits; `%Y` prints the year's
decimal digits (four for any year 1000..9999, the full range relevant to a
current date — `datetime` caps years at 9999). -/

/-- A Python `datetime` value (fields relevant to `strftime`). -/
structure PyDateTime where
  year : Nat
  month : Nat
  day : Nat
  hour : Nat
  minute : Nat
  second : Nat
deriving DecidableEq

/-- Left-pad a string with zeros to the given width (`f"{n:0Nd}"` /
`strftime` zero padding); longer strings pass through unchanged. -/
def padZeros (width : Nat) (s : String) : String :=
  String.mk (List.replicate (width - s.length) '0') ++ s

/-- `now.strftime('%Y%m%d')`. -/
def strftimeYmd (t : PyDateTime) : String :=
  natRepr t.year ++ padZeros 2 (natRepr t.month) ++ padZeros 2 (natRepr t.day)

/-- `now.strftime('%H%M%S')`. -/
def strftimeHMS (t : PyDateTime) : String :=
  padZeros 2 (natRepr t.hour) ++ padZeros 2 (natRepr t.minute) ++ padZeros 2 (natRepr t.second)

/-- `LavaBusinessAPI.generate_random_order_id`, with the current local time
and the two `random.randint(0, 9999)` draws as explicit inputs. -/
def generate_random_order_id (now : PyDateTime) (r1 r2 : Nat) : String :=
  strftimeYmd now ++ "-" ++ padZeros 4 (natRepr r1) ++ "-" ++
    strftimeHMS now ++ "-" ++ padZeros 4 (natRepr r2)

/-- Consume exactly `n` ASCII digits from the front; `some rest` on success. -/
def digitsRun : Nat → List Char → Option (List Char)
  | 0, rest => some rest
  | _ + 1, [] => none
  | n + 1, c :: rest => if c.isDigit then digitsRun n rest else none

/-- Consume one expected character. -/
def expectChar (c : Char) : List Char → Option (List Char)
  | [] => none
  | x :: rest => if x = c then some rest else none

/-- Whether a string matches the anchored pattern
`\d{8}-\d{4}-\d{6}-\d{4}`. -/
def matchesOrderIdPattern (s : String) : Bool :=
  (do
    let r ← digitsRun 8 s.toList
    let r ← expectChar '-' r
    let r ← digitsRun 4 r
    let r ← expectChar '-' r
    let r ← digitsRun 6 r
    let r ← expectChar '-' r
    let r ← digitsRun 4 r
    pure r) = some []

/-! ## `LavaBusinessAPI.create_invoice` — building and signing the request

The network transport is external; the embedding covers the two pure parts
the claims address: the construction of the signed field map (lines
161–184) and the classification of the parsed JSON response (lines
189–232). -/

/-- The optional keyword arguments of `create_invoice`; `none` models an
omitted argument (Python `None` default). -/
structure CreateInvoiceArgs where
  custom_field : Option String := none
  comment : Option String := none
  webhook_url : Option String := none
  fail_url : Option String := none
  success_url : Option String := none
  expire : Option Int := none
  include_service : Option (List String) := none
  exclude_service : Option (List String) := none

/-- A supplied optional argument as a one-entry field list, an omitted one
as the empty list (`if x is not None: fields[k] = x`; each key is fresh, so
conditional dict insertion is concatenation in source order). -/
def optField {α : Type} (key : String) (enc : α → JValue) (x : Option α) : FieldMap :=
  (x.map (fun v => (key, enc v))).toList

/-- The field map `create_invoice` builds before signing: the required
`orderId` / `shopId` / `sum` entries, then each supplied optional field in
source order.  `amount` is an integer in the modelled domain (float
rendering is out of scope). -/
def buildInvoiceFields (amount : Int) (shop_id order_id : String)
    (args : CreateInvoiceArgs) : FieldMap :=
  [("orderId", .jstr order_id), ("shopId", .jstr shop_id), ("sum", .jint amount)]
    ++ optField "customFields" JValue.jstr args.custom_field
    ++ optField "comment" JValue.jstr args.comment
    ++ optField "hookUrl" JValue.jstr args.webhook_url
    ++ optField "failUrl" JValue.jstr args.fail_url
    ++ optField "successUrl" JValue.jstr args.success_url
    ++ optField "expire" JValue.jint args.expire
    ++ optField "includeService" JValue.jarrs args.include_service
    ++ optField "excludeService" JValue.jarrs args.exclude_service

/-- The field map actually sent: `fields["signature"] =
self.generate_signature(fields)` appends the signature of the pre-signature
field set under the fresh key `signature`. -/
def signedInvoiceFields (secret_key : String) (amount : Int)
    (shop_id order_id : String) (args : CreateInvoiceArgs) : FieldMap :=
  let fields := buildInvoiceFields amount shop_id order_id args
  fields ++ [("signature", .jstr (generate_signature secret_key fields))]

/-! ### Response classification -/

/-- `InvoiceInfo` (line 67): field values are carried through from the
response unchecked, so they are raw JSON values here. -/
structure InvoiceInfo where
  invoice_id : JValue
  amount : JValue
  expired : JValue
  status : JValue
  shop_id : JValue
  merchant_name : JValue
  url : JValue
  comment : JValue
  include_service : JValue
  exclude_service : JValue
deriving DecidableEq

/-- The typed failures of `create_invoice`, as observable by the caller.
`invalidResponse` carries no payload: every `InvalidResponseException`
raised inside the handler is re-caught by the final `except Exception`
branch (only the three `CreateInvoiceException` subclasses are re-raised
as-is) and replaced by a bare `raise InvalidResponseException`.  The other
three carry the `message` and `code` constructor arguments in source order;
the derived human-readable `description` string is not modelled. -/
inductive CreateErr where
  | invalidResponse
  | invalidParameter (message : RValue) (code : RValue)
  | invalidSignature (message : RValue) (code : RValue)
  | createInvoice (message : RValue) (code : RValue)
deriving DecidableEq

/-- Required-key extraction from the `data` object: a missing key is a
`KeyError`, caught and converted to `InvalidResponseException`. -/
def requireData (d : List (String × JValue)) (k : String) : Except CreateErr JValue :=
  match dlookup d k with
  | some v => .ok v
  | none => .error .invalidResponse

/-- The response-classification logic of `create_invoice` (lines 189–232),
applied to the parsed top-level JSON object.  `status` defaults to `0` when
absent; `data` values `None`/null are both Python `None`; a non-dict
`data` value makes the subscripts raise `TypeError`, caught by the outer
`except Exception` as `InvalidResponseException`. -/
def classifyInvoiceResponse (r : List (String × RValue)) : Except CreateErr InvoiceInfo :=
  let request_status := dget r "status" (.rj (.jint 0))
  if request_status = .rj (.jint 200) then
    match dlookup r "data" with
    | none | some (.rj .jnull) => .error .invalidResponse
    | some (.rj _) => .error .invalidResponse
    | some (.robj d) => do
      let invoice_id ← requireData d "id"
      let amount ← requireData d "amount"
      let expired ← requireData d "expired"
      let status ← requireData d "status"
      let shop_id ← requireData d "shop_id"
      let merchant_name := dget d "merchantName" (.jstr "Merchant")
      let url ← requireData d "url"
      let comment := dget d "comment" (.jstr "Comment")
      let include_service :=
        match dlookup d "include_service" with
        | none | some .jnull => JValue.jarrs []
        | some v => v
      let exclude_service :=
        match dlookup d "exclude_service" with
        | none | some .jnull => JValue.jarrs []
        | some v => v
      pure ⟨invoice_id, amount, expired, status, shop_id, merchant_name, url,
            comment, include_service, exclude_service⟩
  else if request_status = .rj (.jint 422) then
    match dget r "error" (.rj (.jstr "")) with
    | .robj e => .error (.invalidParameter (.robj e) request_status)
    | .rj _ => .error .invalidResponse
  else if request_status = .rj (.jint 401) then
    .error (.invalidSignature (dget r "error" (.rj (.jstr ""))) request_status)
  else
    .error (.createInvoice (dget r "error" (.rj (.jstr ""))) request_status)

/-! ## `LavaBusinessAPI.handle_webhook` (lines 234–278) -/

/-- Untyped Python exceptions that escape `handle_webhook` (the `except`
clauses there catch only `KeyError`, and `ValueError` only around
`strptime`). -/
inductive PyExn where
  | valueError
  | typeError
deriving DecidableEq

/-- Observable outcomes of `handle_webhook` besides success. -/
inductive WebhookErr where
  | webhookSignature (description : String)
  | invalidResponse (description : String)
  | untyped (e : PyExn)
deriving DecidableEq

/-- ASCII lowercasing of one character; `str.lower()` restricted to the
ASCII range, which is all that HTTP header names use. -/
def asciiLowerChar (c : Char) : Char :=
  if 'A' ≤ c ∧ c ≤ 'Z' then Char.ofNat (c.toNat + 32) else c

/-- `k.lower()` on a header name. -/
def asciiLower (s : String) : String := String.mk (s.toList.map asciiLowerChar)

/-- Python dict insertion `d[k] = v`: an existing key keeps its position and
gets the new value, a fresh key is appended. -/
def dinsert {α : Type} : List (String × α) → String → α → List (String × α)
  | [], k, v => [(k, v)]
  | (k', v') :: rest, k, v =>
      if k' = k then (k', v) :: rest else (k', v') :: dinsert rest k v

/-- `{k.lower(): v for k, v in headers.items()}`: a fresh dict built by
inserting each entry in iteration order under its lowercased key (a later
duplicate overwrites an earlier one). -/
def lowerHeaders (headers : List (String × String)) : List (String × String) :=
  headers.foldl (fun acc kv => dinsert acc (asciiLower kv.1) kv.2) []

/-- The result of the `datetime.strptime(..., "%Y-%m-%d %H:%M:%S")` /
`except (ValueError, KeyError)` block: either a parsed timestamp or the
current local time at processing (`datetime.datetime.now()`), kept
abstract. -/
inductive PayTime where
  | parsed (t : PyDateTime)
  | now
deriving DecidableEq

/-- `datetime.strptime(s, "%Y-%m-%d %H:%M:%S")` as an option.  The parse is
modelled in its strict fixed-width form with field range checks;
Python additionally accepts 1-digit months/days/hours and validates the
day against the actual calendar, but *every* acceptance decision on a
string argument is caught (`ValueError`) and replaced by the current time,
so no claim can observe the exact acceptance set. -/
def strptimeYmdHMS (s : String) : Option PyDateTime :=
  match s.toList with
  | [y1, y2, y3, y4, '-', m1, m2, '-', d1, d2, ' ',
     h1, h2, ':', n1, n2, ':', s1, s2] =>
    if [y1, y2, y3, y4, m1, m2, d1, d2, h1, h2, n1, n2, s1, s2].all Char.isDigit then
      let num := fun (a b : Char) => (a.toNat - 48) * 10 + (b.toNat - 48)
      let mo := num m1 m2
      let da := num d1 d2
      let ho := num h1 h2
      let mi := num n1 n2
      let se := num s1 s2
      if 1 ≤ mo ∧ mo ≤ 12 ∧ 1 ≤ da ∧ da ≤ 31 ∧ ho ≤ 23 ∧ mi ≤ 59 ∧ se ≤ 59 then
        some ⟨num y1 y2 * 100 + num y3 y4, mo, da, ho, mi, se⟩
      else none
    else none
  | _ => none

/-- Python whitespace stripped by `float(str)`. -/
def isPySpace (c : Char) : Bool :=
  c = ' ' || c = '\t' || c = '\n' || c = '\r' || c.toNat = 11 || c.toNat = 12

/-- Drop one optional leading sign. -/
def dropSign : List Char → List Char
  | '+' :: r => r
  | '-' :: r => r
  | r => r

/-- Decimal mantissa: `digits`, `digits.`, `.digits` or `digits.digits`. -/
def mantissaOk (cs : List Char) : Bool :=
  let intPart := cs.takeWhile Char.isDigit
  match cs.dropWhile Char.isDigit with
  | [] => !intPart.isEmpty
  | '.' :: frac => frac.all Char.isDigit && (!intPart.isEmpty || !frac.isEmpty)
  | _ => false

/-- Acceptance set of Python's `float(str)` (sign, `inf`/`infinity`/`nan`
case-insensitively, or a decimal with optional exponent; PEP 515 digit
underscores are omitted from the model — no claim involves them). -/
def isPyFloatStr (s : String) : Bool :=
  let cs := (s.toList.dropWhile isPySpace).reverse.dropWhile isPySpace |>.reverse
  let body := dropSign cs
  let lowered := body.map asciiLowerChar
  lowered = ['i', 'n', 'f'] || lowered = ['i', 'n', 'f', 'i', 'n', 'i', 't', 'y'] ||
  lowered = ['n', 'a', 'n'] ||
  (let mant := body.takeWhile (fun c => !(c = 'e' || c = 'E'))
   match body.dropWhile (fun c => !(c = 'e' || c = 'E')) with
   | [] => mantissaOk mant
   | _ :: ex =>
     mantissaOk mant && (let ds := dropSign ex; !ds.isEmpty && ds.all Char.isDigit))

/-- `float(v)` on a JSON value: numbers and booleans coerce, strings coerce
exactly when `isPyFloatStr` accepts them (`ValueError` otherwise), and
`None`/lists raise `TypeError`.  Neither exception is caught by
`handle_webhook`.  The numeric result is carried as the original value:
no claim observes the float's arithmetic value, only which inputs
coerce. -/
def pyFloat : JValue → Except WebhookErr JValue
  | .jint n => .ok (.jint n)
  | .jbool b => .ok (.jbool b)
  | .jstr s => if isPyFloatStr s then .ok (.jstr s) else .error (.untyped .valueError)
  | .jnull => .error (.untyped .typeError)
  | .jarrs _ => .error (.untyped .typeError)

/-- `SuccessfulInvoiceInfo` (line 55).  Values are carried raw;
`custom_field` is the Python value of `received_data.get("custom_field")`,
where absent and JSON-null are both Python `None` (`jnull`). -/
structure SuccessfulInvoiceInfo where
  invoice_id : JValue
  order_id : JValue
  status : JValue
  payed : Bool
  pay_time : PayTime
  amount : JValue
  credited : JValue
  custom_field : JValue
deriving DecidableEq

/-- Python `status == "success"`: true exactly for the equal string (a
non-string compares unequal to a string). -/
def jeqStr (v : JValue) (s : String) : Bool :=
  match v with
  | .jstr t => t = s
  | _ => false

/-- `received_data[k]` under the `except KeyError` handler of lines
273–276: a missing key becomes `InvalidResponseException`. -/
def requireField (d : FieldMap) (k : String) : Except WebhookErr JValue :=
  match dlookup d k with
  | some v => .ok v
  | none => .error (.invalidResponse "Error while reading data from dictionary")

/-- The `pay_time` block (lines 256–260): a missing `"payed"` key
(`KeyError`) or an unparseable string (`ValueError`) fall back to
`datetime.now()`; a present non-string value makes `strptime` raise
`TypeError`, which no handler catches. -/
def computePayTime (d : FieldMap) : Except WebhookErr PayTime :=
  match dlookup d "payed" with
  | none => .ok .now
  | some (.jstr s) =>
      .ok (match strptimeYmdHMS s with
           | some t => .parsed t
           | none => .now)
  | some _ => .error (.untyped .typeError)

/-- Field extraction into `SuccessfulInvoiceInfo` (lines 255–276), in the
source's evaluation order.  On line 271 the condition
`(custom_fields := received_data.get("custom_field"), None) is not None`
tests a freshly built two-element *tuple* — the walrus assignment and
`None` — which is never `None`; the `else ""` branch is dead code, so the
field is exactly `received_data.get("custom_field")`. -/
def webhookExtract (received_data : FieldMap) : Except WebhookErr SuccessfulInvoiceInfo := do
  let pay_time ← computePayTime received_data
  let invoice_id ← requireField received_data "invoice_id"
  let order_id := dget received_data "order_id" (.jstr "")
  let status ← requireField received_data "status"
  let payed := jeqStr status "success"
  let amountRaw ← requireField received_data "amount"
  let amount ← pyFloat amountRaw
  let creditedRaw ← requireField received_data "credited"
  let credited ← pyFloat creditedRaw
  let custom_field := dget received_data "custom_field" .jnull
  pure ⟨invoice_id, order_id, status, payed, pay_time, amount, credited, custom_field⟩

/-- `LavaBusinessAPI.handle_webhook`: case-insensitive `authorization`
lookup, byte-for-byte signature comparison against the recomputed
signature, then field extraction. -/
def handle_webhook (secret_key : String) (received_data : FieldMap)
    (headers : List (String × String)) : Except WebhookErr SuccessfulInvoiceInfo :=
  match dlookup (lowerHeaders headers) "authorization" with
  | none => .error (.webhookSignature "No 'Authorization' header")
  | some server_signature =>
    if server_signature = generate_signature secret_key received_data
    then webhookExtract received_data
    else .error (.webhookSignature "Server and client signatures don't match")

/-! ## A state-threading view of `handle_webhook`, for the frame claim

The two argument dicts become explicit state; every dict operation the
Python body performs on them is a primitive that takes the state and
returns it (possibly updated).  An operation that mutated an argument —
`d[k] = v`, `del`, `update` — would have to return a changed state; the
body of `handle_webhook` performs only reads (`items()` iteration inside
the comprehension and inside `sorted(...)`, `[]`, `.get`), and the header
normalization writes into a *fresh* dict, so the final state provably
equals the initial one. -/

/-- The mutable environment of `handle_webhook`: the body dict and the
headers dict. -/
abbrev WebhookSt := FieldMap × List (String × String)

/-- State-threading computations over the two argument dicts. -/
def WhM (α : Type) : Type := WebhookSt → α × WebhookSt

/-- Sequencing of state-threading steps. -/
def whBind {α β : Type} (m : WhM α) (f : α → WhM β) : WhM β :=
  fun st => match m st with | (a, st') => f a st'

/-- A step that touches no dict. -/
def whPure {α : Type} (a : α) : WhM α := fun st => (a, st)

/-- `received_data.items()` / iteration: reads the body dict. -/
def readBodyItems : WhM FieldMap := fun st => (st.1, st)

/-- `received_data[k]` / `received_data.get(k, ...)`: reads one key. -/
def readBodyLookup (k : String) : WhM (Option JValue) := fun st => (dlookup st.1 k, st)

/-- `headers.items()`: reads the headers dict. -/
def readHeaderItems : WhM (List (String × String)) := fun st => (st.2, st)

/-- `handle_webhook` with every access to the argument dicts threaded
through the state, step for step. -/
def handle_webhook_st (secret_key : String) : WhM (Except WebhookErr SuccessfulInvoiceInfo) :=
  whBind readHeaderItems fun hitems =>
  let lowered := hitems.foldl (fun acc kv => dinsert acc (asciiLower kv.1) kv.2) []
  match dlookup lowered "authorization" with
  | none => whPure (.error (.webhookSignature "No 'Authorization' header"))
  | some server_signature =>
    whBind readBodyItems fun bitems =>
    if server_signature = generate_signature secret_key bitems then
      whBind (readBodyLookup "payed") fun payedField =>
      match (match payedField with
             | none => Except.ok PayTime.now
             | some (.jstr s) =>
                 .ok (match strptimeYmdHMS s with
                      | some t => .parsed t
                      | none => .now)
             | some _ => .error (WebhookErr.untyped .typeError) :
              Except WebhookErr PayTime) with
      | .error e => whPure (.error e)
      | .ok pay_time =>
        whBind readBodyItems fun body =>
        whPure (do
          let invoice_id ← requireField body "invoice_id"
          let order_id := dget body "order_id" (.jstr "")
          let status ← requireField body "status"
          let payed := jeqStr status "success"
          let amountRaw ← requireField body "amount"
          let amount ← pyFloat amountRaw
          let creditedRaw ← requireField body "credited"
          let credited ← pyFloat creditedRaw
          let custom_field := dget body "custom_field" .jnull
          pure ⟨invoice_id, order_id, status, payed, pay_time, amount, credited, custom_field⟩)
    else
      whPure (.error (.webhookSignature "Server and client signatures don't match"))

/-! ## Helper lemmas: digest length and alphabet -/

/-- The sixteen lowercase hexadecimal digit characters. -/
def hexDigits : List Char := "0123456789abcdef".toList

/-- Whether a character is a lowercase hexadecimal digit. -/
def isHexDigitChar (c : Char) : Bool := decide (c ∈ hexDigits)

theorem nibbleChar_mem (n : Nat) : nibbleChar n ∈ hexDigits := by
  unfold nibbleChar
  split <;> decide

theorem hexNibble_mem (n : Nat) : hexNibble n ∈ hexDigits := nibbleChar_mem _

theorem flatten_length_const {α β : Type} (f : α → List β) (k : Nat)
    (h : ∀ a, (f a).length = k) : ∀ l : List α, ((l.map f).flatten).length = k * l.length
  | [] => by simp
  | x :: xs => by
      simp only [List.map_cons, List.flatten_cons, List.length_append, h x,
        flatten_length_const f k h xs, List.length_cons]
      ring

theorem sha256Compress_length (h blk : List Nat) : (sha256Compress h blk).length = 8 := rfl

theorem foldl_sha256Compress_length :
    ∀ (bs : List (List Nat)) (h : List Nat), h.length = 8 →
      (bs.foldl sha256Compress h).length = 8
  | [], _, hh => hh
  | b :: bs, h, _ => foldl_sha256Compress_length bs _ (sha256Compress_length h b)

theorem sha256_length (msg : List Nat) : (sha256 msg).length = 32 := by
  unfold sha256
  rw [flatten_length_const wordBytesBE 4 (fun _ => rfl),
    foldl_sha256Compress_length _ sha256H0 (by rfl)]

theorem hmacSha256_length (key msg : List Nat) : (hmacSha256 key msg).length = 32 := by
  unfold hmacSha256
  exact sha256_length _

theorem hexdigest_length (bytes : List Nat) : (hexdigest bytes).length = 2 * bytes.length := by
  show ((bytes.map byteHexChars).flatten).length = 2 * bytes.length
  exact flatten_length_const byteHexChars 2 (fun _ => rfl) bytes

theorem generate_signature_length (secret : String) (fields : FieldMap) :
    (generate_signature secret fields).length = 64 := by
  unfold generate_signature
  rw [hexdigest_length, hmacSha256_length]

theorem hexdigest_chars (bytes : List Nat) :
    ∀ c ∈ (hexdigest bytes).toList, c ∈ hexDigits := by
  intro c hc
  have hc' : c ∈ (bytes.map byteHexChars).flatten := hc
  rw [List.mem_flatten] at hc'
  obtain ⟨l, hl, hcl⟩ := hc'
  rw [List.mem_map] at hl
  obtain ⟨b, _, rfl⟩ := hl
  simp only [byteHexChars, List.mem_cons, List.not_mem_nil, or_false] at hcl
  rcases hcl with rfl | rfl
  · exact hexNibble_mem _
  · exact hexNibble_mem _

/-! ## Claim C1 -/

/-- **C1.** For every field map and secret key, `generate_signature` returns
the HMAC-SHA256 digest — rendered as a 64-character lowercase-hexadecimal
string — computed over the UTF-8 bytes of the compact JSON serialization
(separators `','`/`':'`, so no whitespace) of the map's entries sorted
ascending by key, keyed by the UTF-8 bytes of the secret key: the result is
literally `hexdigest ∘ hmacSha256 (utf8Bytes secret)` of that
serialization, the serialized entry list is a permutation of the input that
is sorted ascending by key, the output has length 64, and every output
character is a lowercase hex digit. -/
theorem claim_C1 (secret : String) (fields : FieldMap) :
    generate_signature secret fields =
      hexdigest (hmacSha256 (utf8Bytes secret)
        (utf8Bytes (jsonDumpsCompact (sortedFields fields)))) ∧
    (sortedFields fields).Perm fields ∧
    List.Sorted fieldLE (sortedFields fields) ∧
    (generate_signature secret fields).length = 64 ∧
    ((generate_signature secret fields).toList.all isHexDigitChar) = true := by
  refine ⟨rfl, List.perm_insertionSort fieldLE fields, ?_,
    generate_signature_length secret fields, ?_⟩
  · haveI : IsTotal (String × JValue) fieldLE := ⟨fun a b => le_total a.1 b.1⟩
    haveI : IsTrans (String × JValue) fieldLE := ⟨fun _ _ _ h1 h2 => le_trans h1 h2⟩
    exact List.sorted_insertionSort fieldLE fields
  · rw [List.all_eq_true]
    intro c hc
    rw [isHexDigitChar, decide_eq_true_eq]
    exact hexdigest_chars _ c hc

/-! ## Claim C7 -/

/-- Strict key order on entries, used to show sorting is unambiguous on
maps without duplicate keys. -/
def fieldLT (a b : String × JValue) : Prop := a.1 < b.1

instance : IsAntisymm (String × JValue) fieldLT :=
  ⟨fun _ _ h1 h2 => absurd h1 (lt_asymm h2)⟩

theorem sortedFields_eq_of_perm {l1 l2 : FieldMap} (hperm : l1.Perm l2)
    (hnd : (l1.map Prod.fst).Nodup) : sortedFields l1 = sortedFields l2 := by
  haveI : IsTotal (String × JValue) fieldLE := ⟨fun a b => le_total a.1 b.1⟩
  haveI : IsTrans (String × JValue) fieldLE := ⟨fun _ _ _ h1 h2 => le_trans h1 h2⟩
  have hsortLT : ∀ l : FieldMap, (l.map Prod.fst).Nodup →
      List.Sorted fieldLT (sortedFields l) := by
    intro l hl
    have hndS : ((sortedFields l).map Prod.fst).Nodup :=
      (((List.perm_insertionSort fieldLE l).map Prod.fst).nodup_iff).mpr hl
    have hne : (sortedFields l).Pairwise (fun a b : String × JValue => a.1 ≠ b.1) :=
      List.pairwise_map.mp hndS
    have hle : List.Sorted fieldLE (sortedFields l) := List.sorted_insertionSort fieldLE l
    exact (hle.and hne).imp (fun hab => lt_of_le_of_ne hab.1 hab.2)
  have hnd2 : (l2.map Prod.fst).Nodup := ((hperm.map Prod.fst).nodup_iff).mp hnd
  have hp : (sortedFields l1).Perm (sortedFields l2) :=
    ((List.perm_insertionSort fieldLE l1).trans hperm).trans
      (List.perm_insertionSort fieldLE l2).symm
  exact List.eq_of_perm_of_sorted hp (hsortLT l1 hnd) (hsortLT l2 hnd2)

/-- **C7.** For every two field maps containing the same key-value pairs in
different orders (and, as for any Python dict, no duplicate keys),
`generate_signature` returns the same digest: the input's key order does
not affect the output. -/
theorem claim_C7 (secret : String) (l1 l2 : FieldMap) (hperm : l1.Perm l2)
    (hnd : (l1.map Prod.fst).Nodup) :
    generate_signature secret l1 = generate_signature secret l2 := by
  unfold generate_signature
  rw [sortedFields_eq_of_perm hperm hnd]

/-- Witness for C7 at the spec's own example `sign({a:1,b:2}) =
sign({b:2,a:1})`. -/
theorem claim_C7_witness :
    ([(("b" : String), JValue.jint 2), ("a", JValue.jint 1)] : FieldMap).Perm
      [("a", JValue.jint 1), ("b", JValue.jint 2)] ∧
    generate_signature "key" [(("b" : String), JValue.jint 2), ("a", JValue.jint 1)] =
      generate_signature "key" [("a", JValue.jint 1), ("b", JValue.jint 2)] :=
  ⟨by decide, claim_C7 "key" _ _ (by decide) (by decide)⟩

/-! ## Claim C3 -/

/-- **C3.** With no `authorization` header (after case-insensitive
normalization), `handle_webhook` fails with the webhook signature error for
*every* body — the result never depends on any body field, so no field
extraction is observable; with the header present but different from the
signature recomputed over the body with the held key, it likewise fails
with the webhook signature error for every body, before any field of the
body is parsed (a body of any malformed shape still yields exactly the
signature error, never a format or extraction error). -/
theorem claim_C3 (secret : String) (body : FieldMap) (headers : List (String × String)) :
    (dlookup (lowerHeaders headers) "authorization" = none →
      handle_webhook secret body headers =
        .error (.webhookSignature "No 'Authorization' header")) ∧
    (∀ s, dlookup (lowerHeaders headers) "authorization" = some s →
      s ≠ generate_signature secret body →
      handle_webhook secret body headers =
        .error (.webhookSignature "Server and client signatures don't match")) := by
  constructor
  · intro h
    unfold handle_webhook
    rw [h]
  · intro s hs hne
    unfold handle_webhook
    rw [hs]
    simp only [if_neg hne]

/-- Witness for C3: a headerless request is rejected whatever the body
holds, and a wrong (here: empty, hence wrong-length) `authorization` value
is rejected on a well-formed body. -/
theorem claim_C3_witness :
    handle_webhook "key" [("invoice_id", JValue.jstr "1")] [] =
      .error (.webhookSignature "No 'Authorization' header") ∧
    handle_webhook "key" [("invoice_id", JValue.jstr "1")] [("Authorization", "")] =
      .error (.webhookSignature "Server and client signatures don't match") := by
  constructor
  · exact (claim_C3 "key" [("invoice_id", JValue.jstr "1")] []).1 rfl
  · refine (claim_C3 "key" [("invoice_id", JValue.jstr "1")]
      [("Authorization", "")]).2 "" rfl (fun h => ?_)
    have hlen := congrArg String.length h
    rw [generate_signature_length] at hlen
    exact absurd hlen (by decide)

/-! ## Claim C8 -/

theorem except_bind_ok {ε α β : Type} (a : α) (f : α → Except ε β) :
    (Except.ok a >>= f) = f a := rfl

theorem except_bind_error {ε α β : Type} (e : ε) (f : α → Except ε β) :
    ((Except.error e : Except ε α) >>= f) = Except.error e := rfl

theorem except_map_ok {ε α β : Type} (f : α → β) (a : α) :
    (f <$> (Except.ok a : Except ε α)) = Except.ok (f a) := rfl

theorem except_map_error {ε α β : Type} (f : α → β) (e : ε) :
    (f <$> (Except.error e : Except ε α)) = Except.error e := rfl

theorem requireField_ok {d : FieldMap} {k : String} {v : JValue} :
    requireField d k = .ok v ↔ dlookup d k = some v := by
  unfold requireField
  cases dlookup d k <;> simp

theorem jeqStr_eq_true {v : JValue} {s : String} : jeqStr v s = true ↔ v = .jstr s := by
  cases v <;> simp [jeqStr]

/-- A successful extraction read `status` from the body, and `payed` is the
Python comparison of that value with `"success"`. -/
theorem webhookExtract_ok_status {d : FieldMap} {info : SuccessfulInvoiceInfo}
    (h : webhookExtract d = .ok info) :
    ∃ v, dlookup d "status" = some v ∧ info.payed = jeqStr v "success" := by
  unfold webhookExtract at h
  cases hpt : computePayTime d <;> rw [hpt] at h
  case error e => rw [except_bind_error] at h; exact Except.noConfusion h
  case ok pt =>
  rw [except_bind_ok] at h
  cases hinv : requireField d "invoice_id" <;> rw [hinv] at h
  case error e => rw [except_bind_error] at h; exact Except.noConfusion h
  case ok invoice_id =>
  rw [except_bind_ok] at h
  cases hst : requireField d "status" <;> rw [hst] at h
  case error e => rw [except_bind_error] at h; exact Except.noConfusion h
  case ok status =>
  rw [except_bind_ok] at h
  cases ham : requireField d "amount" <;> rw [ham] at h
  case error e => rw [except_bind_error] at h; exact Except.noConfusion h
  case ok amountRaw =>
  rw [except_bind_ok] at h
  cases hamf : pyFloat amountRaw <;> rw [hamf] at h
  case error e => rw [except_bind_error] at h; exact Except.noConfusion h
  case ok amount =>
  rw [except_bind_ok] at h
  cases hcr : requireField d "credited" <;> rw [hcr] at h
  case error e => rw [except_bind_error] at h; exact Except.noConfusion h
  case ok creditedRaw =>
  rw [except_bind_ok] at h
  cases hcrf : pyFloat creditedRaw <;> rw [hcrf] at h
  case error e => rw [except_bind_error] at h; exact Except.noConfusion h
  case ok credited =>
  rw [except_bind_ok] at h
  refine ⟨status, requireField_ok.mp hst, ?_⟩
  have := Except.ok.inj h
  rw [← this]

/-- **C8.** Whenever `handle_webhook` returns a `SuccessfulInvoiceInfo`
(which requires a correctly signed body containing the required fields),
its `payed` field is `true` exactly when the body's `status` field is the
literal string `"success"`; every other status value yields
`payed = false`. -/
theorem claim_C8 (secret : String) (body : FieldMap) (headers : List (String × String))
    (info : SuccessfulInvoiceInfo)
    (h : handle_webhook secret body headers = .ok info) :
    (info.payed = true ↔ dlookup body "status" = some (.jstr "success")) := by
  unfold handle_webhook at h
  cases hlk : dlookup (lowerHeaders headers) "authorization" <;> rw [hlk] at h
  case none => exact Except.noConfusion h
  case some server_signature =>
  dsimp only at h
  by_cases hsig : server_signature = generate_signature secret body
  · rw [if_pos hsig] at h
    obtain ⟨v, hv, hp⟩ := webhookExtract_ok_status h
    constructor
    · intro hpt
      rw [hpt] at hp
      rw [hv, (jeqStr_eq_true.mp hp.symm)]
    · intro hst
      rw [hv] at hst
      have : v = .jstr "success" := Option.some.inj hst
      rw [hp, jeqStr_eq_true]
      exact this
  · rw [if_neg hsig] at h
    exact Except.noConfusion h

/-- A concrete well-formed webhook body (no `custom_field`, no `payed`). -/
def c8Body : FieldMap :=
  [("invoice_id", .jstr "inv-1"), ("order_id", .jstr "ord-1"),
   ("status", .jstr "success"), ("amount", .jint 5), ("credited", .jint 4)]

/-- Headers carrying the matching signature for `c8Body`. -/
def c8Headers : List (String × String) :=
  [("Authorization", generate_signature "key" c8Body)]

/-- The extraction result for `c8Body`. -/
def c8Info : SuccessfulInvoiceInfo :=
  ⟨.jstr "inv-1", .jstr "ord-1", .jstr "success", true, .now, .jint 5, .jint 4, .jnull⟩

theorem c8_run : handle_webhook "key" c8Body c8Headers = .ok c8Info := by
  unfold handle_webhook
  rw [show dlookup (lowerHeaders c8Headers) "authorization"
      = some (generate_signature "key" c8Body) from rfl]
  dsimp only
  rw [if_pos rfl]
  rfl

/-- Witness for C8 on a correctly signed body with `status = "success"`. -/
theorem claim_C8_witness :
    handle_webhook "key" c8Body c8Headers = .ok c8Info ∧
    (c8Info.payed = true ↔ dlookup c8Body "status" = some (.jstr "success")) :=
  ⟨c8_run, claim_C8 "key" c8Body c8Headers c8Info c8_run⟩

/-! ## Claim C4 -/

/-- A correctly signable webhook body with no `custom_field` key. -/
def c4Body : FieldMap :=
  [("invoice_id", .jstr "1"), ("status", .jstr "success"),
   ("amount", .jint 100), ("credited", .jint 97)]

/-- Headers carrying the matching signature for `c4Body`. -/
def c4Headers : List (String × String) :=
  [("authorization", generate_signature "key" c4Body)]

/-- **C4** (claim: absent `custom_field` defaults to `""`).  What the code
does instead: on line 271 the guard `(custom_fields :=
received_data.get("custom_field"), None) is not None` tests a freshly
built two-element tuple, which is never `None`, so the `else ""` default
is dead code and the constructed `SuccessfulInvoiceInfo` carries
`received_data.get("custom_field")` — Python `None` (`jnull`) when the key
is absent, not the empty string. -/
theorem claim_C4 :
    handle_webhook "key" c4Body c4Headers =
      .ok ⟨.jstr "1", .jstr "", .jstr "success", true, .now,
           .jint 100, .jint 97, .jnull⟩ ∧
    JValue.jnull ≠ JValue.jstr "" := by
  constructor
  · unfold handle_webhook
    rw [show dlookup (lowerHeaders c4Headers) "authorization"
        = some (generate_signature "key" c4Body) from rfl]
    dsimp only
    rw [if_pos rfl]
    rfl
  · decide

/-! ## Claim C2 -/

/-- The keys the claim lists as required in a `data` object. -/
def requiredInvoiceKeys : List String := ["id", "amount", "expired", "status", "shop_id", "url"]

/-- Whether a `data` object carries every required key. -/
def requiredInvoiceKeysPresent (d : List (String × JValue)) : Bool :=
  requiredInvoiceKeys.all (fun k => (dlookup d k).isSome)

/-- The `InvoiceInfo` the spec describes for a complete `data` object: the
required fields read directly (the `.getD .jnull` defaults are never
reached when all required keys are present), `merchantName` defaulting to
`"Merchant"`, `comment` defaulting to `"Comment"`, and the service lists
defaulting to empty when absent or null. -/
def invoiceInfoOfData (d : List (String × JValue)) : InvoiceInfo :=
  ⟨(dlookup d "id").getD .jnull, (dlookup d "amount").getD .jnull,
   (dlookup d "expired").getD .jnull, (dlookup d "status").getD .jnull,
   (dlookup d "shop_id").getD .jnull, dget d "merchantName" (.jstr "Merchant"),
   (dlookup d "url").getD .jnull, dget d "comment" (.jstr "Comment"),
   (match dlookup d "include_service" with
    | none | some .jnull => JValue.jarrs []
    | some v => v),
   (match dlookup d "exclude_service" with
    | none | some .jnull => JValue.jarrs []
    | some v => v)⟩

/-- **C2.** Classification of the invoice-creation response by its `status`
field (read with default `0` when absent): `422` with an object-valued
`error` raises the parameter error carrying that payload and code; `422`
with a non-object `error` raises the response-format error; `401` raises
the signature error with code and payload; `200` without `data` raises the
response-format error; `200` with a `data` object missing a required key
(`id`, `amount`, `expired`, `status`, `shop_id`, `url`) raises the
response-format error; `200` with all required keys returns the populated
`InvoiceInfo` with `merchantName`/`comment`/service-list defaults; any
other status raises the generic creation error with code and payload. -/
theorem claim_C2 (r : List (String × RValue)) :
    ((dget r "status" (.rj (.jint 0)) = .rj (.jint 422) →
      (∀ e, dget r "error" (.rj (.jstr "")) = .robj e →
        classifyInvoiceResponse r =
          .error (.invalidParameter (.robj e) (.rj (.jint 422)))) ∧
      (∀ v, dget r "error" (.rj (.jstr "")) = .rj v →
        classifyInvoiceResponse r = .error .invalidResponse)) ∧
     (dget r "status" (.rj (.jint 0)) = .rj (.jint 401) →
      classifyInvoiceResponse r =
        .error (.invalidSignature (dget r "error" (.rj (.jstr ""))) (.rj (.jint 401)))) ∧
     (dget r "status" (.rj (.jint 0)) = .rj (.jint 200) →
      (dlookup r "data" = none →
        classifyInvoiceResponse r = .error .invalidResponse) ∧
      (∀ d, dlookup r "data" = some (.robj d) →
        (requiredInvoiceKeysPresent d = false →
          classifyInvoiceResponse r = .error .invalidResponse) ∧
        (requiredInvoiceKeysPresent d = true →
          classifyInvoiceResponse r = .ok (invoiceInfoOfData d)))) ∧
     (dget r "status" (.rj (.jint 0)) ≠ .rj (.jint 200) →
      dget r "status" (.rj (.jint 0)) ≠ .rj (.jint 422) →
      dget r "status" (.rj (.jint 0)) ≠ .rj (.jint 401) →
      classifyInvoiceResponse r =
        .error (.createInvoice (dget r "error" (.rj (.jstr "")))
          (dget r "status" (.rj (.jint 0)))))) := by
  refine ⟨fun h1 => ⟨fun e h2 => ?_, fun v h2 => ?_⟩, fun h1 => ?_,
    fun h1 => ⟨fun hd => ?_, fun d hd => ⟨fun hpres => ?_, fun hpres => ?_⟩⟩,
    fun h200 h422 h401 => ?_⟩
  · simp [classifyInvoiceResponse, h1, h2]
  · simp [classifyInvoiceResponse, h1, h2]
  · simp [classifyInvoiceResponse, h1]
  · simp [classifyInvoiceResponse, h1, hd]
  · cases hid : dlookup d "id"
    · simp [classifyInvoiceResponse, h1, hd, requireData, except_bind_ok, except_bind_error, except_map_ok, except_map_error, hid]
    cases ham : dlookup d "amount"
    · simp [classifyInvoiceResponse, h1, hd, requireData, except_bind_ok, except_bind_error, except_map_ok, except_map_error, hid, ham]
    cases hex : dlookup d "expired"
    · simp [classifyInvoiceResponse, h1, hd, requireData, except_bind_ok, except_bind_error, except_map_ok, except_map_error, hid, ham, hex]
    cases hst : dlookup d "status"
    · simp [classifyInvoiceResponse, h1, hd, requireData, except_bind_ok, except_bind_error, except_map_ok, except_map_error, hid, ham, hex, hst]
    cases hsh : dlookup d "shop_id"
    · simp [classifyInvoiceResponse, h1, hd, requireData, except_bind_ok, except_bind_error, except_map_ok, except_map_error, hid, ham, hex, hst, hsh]
    cases hur : dlookup d "url"
    · simp [classifyInvoiceResponse, h1, hd, requireData, except_bind_ok, except_bind_error, except_map_ok, except_map_error, hid, ham, hex, hst, hsh, hur]
    rw [requiredInvoiceKeysPresent] at hpres
    simp [requiredInvoiceKeys, hid, ham, hex, hst, hsh, hur] at hpres
  · have hall := List.all_eq_true.mp hpres
    obtain ⟨vid, hid⟩ := Option.isSome_iff_exists.mp (hall "id" (by decide))
    obtain ⟨vam, ham⟩ := Option.isSome_iff_exists.mp (hall "amount" (by decide))
    obtain ⟨vex, hex⟩ := Option.isSome_iff_exists.mp (hall "expired" (by decide))
    obtain ⟨vst, hst⟩ := Option.isSome_iff_exists.mp (hall "status" (by decide))
    obtain ⟨vsh, hsh⟩ := Option.isSome_iff_exists.mp (hall "shop_id" (by decide))
    obtain ⟨vur, hur⟩ := Option.isSome_iff_exists.mp (hall "url" (by decide))
    simp [classifyInvoiceResponse, h1, hd, requireData, invoiceInfoOfData, except_bind_ok, except_bind_error, except_map_ok, except_map_error,
      hid, ham, hex, hst, hsh, hur]
  · simp [classifyInvoiceResponse, if_neg h200, if_neg h422, if_neg h401]

/-- A complete `data` object carrying only the required keys. -/
def c2FullData : List (String × JValue) :=
  [("id", .jstr "inv-9"), ("amount", .jint 10), ("expired", .jstr "2026-01-01"),
   ("status", .jint 1), ("shop_id", .jstr "shop-1"), ("url", .jstr "https://pay")]

/-- Witness for C2, one concrete response per branch: 422 with an object
error, 422 with a string error, 401, 200 without `data`, 200 with an
incomplete `data`, 200 with a complete minimal `data` (showing the
`Merchant`/`Comment`/empty-list defaults), and an empty response (status
defaulting to 0, hence the generic creation error). -/
theorem claim_C2_witness :
    classifyInvoiceResponse
        [("status", .rj (.jint 422)), ("error", .robj [("orderId", .jstr "dup")])] =
      .error (.invalidParameter (.robj [("orderId", .jstr "dup")]) (.rj (.jint 422))) ∧
    classifyInvoiceResponse
        [("status", .rj (.jint 422)), ("error", .rj (.jstr "bad"))] =
      .error .invalidResponse ∧
    classifyInvoiceResponse [("status", .rj (.jint 401))] =
      .error (.invalidSignature (.rj (.jstr "")) (.rj (.jint 401))) ∧
    classifyInvoiceResponse [("status", .rj (.jint 200))] = .error .invalidResponse ∧
    classifyInvoiceResponse
        [("status", .rj (.jint 200)), ("data", .robj [("id", .jstr "inv-9")])] =
      .error .invalidResponse ∧
    classifyInvoiceResponse [("status", .rj (.jint 200)), ("data", .robj c2FullData)] =
      .ok (invoiceInfoOfData c2FullData) ∧
    invoiceInfoOfData c2FullData =
      ⟨.jstr "inv-9", .jint 10, .jstr "2026-01-01", .jint 1, .jstr "shop-1",
       .jstr "Merchant", .jstr "https://pay", .jstr "Comment", .jarrs [], .jarrs []⟩ ∧
    classifyInvoiceResponse [] =
      .error (.createInvoice (.rj (.jstr "")) (.rj (.jint 0))) := by
  refine ⟨((claim_C2 _).1 (by rfl)).1 _ (by rfl),
    ((claim_C2 _).1 (by rfl)).2 (.jstr "bad") (by rfl),
    (claim_C2 _).2.1 (by rfl),
    ((claim_C2 _).2.2.1 (by rfl)).1 (by rfl),
    (((claim_C2 _).2.2.1 (by rfl)).2 _ (by rfl)).1 (by decide),
    (((claim_C2 _).2.2.1 (by rfl)).2 _ (by rfl)).2 (by decide),
    by rfl,
    (claim_C2 _).2.2.2 (by decide) (by decide) (by decide)⟩

/-! ## Claim C5 -/

/-- A correctly signable webhook body whose `amount` is a string that
`float()` rejects. -/
def c5Body : FieldMap :=
  [("invoice_id", .jstr "1"), ("status", .jstr "pending"),
   ("amount", .jstr "abc"), ("credited", .jint 1)]

/-- Headers carrying the matching signature for `c5Body`. -/
def c5Headers : List (String × String) :=
  [("authorization", generate_signature "key" c5Body)]

/-- **C5** (claim: a present but uncoercible `amount` yields the typed
response-format error).  What the code does instead: `float(...)` raises
`ValueError`, the surrounding `except` clauses catch only `KeyError` (and
`ValueError` only around `strptime`), so the untyped `ValueError`
escapes — not the `InvalidResponseException` used for missing required
fields. -/
theorem claim_C5 :
    handle_webhook "key" c5Body c5Headers = .error (.untyped .valueError) ∧
    WebhookErr.untyped .valueError ≠
      .invalidResponse "Error while reading data from dictionary" := by
  constructor
  · unfold handle_webhook
    rw [show dlookup (lowerHeaders c5Headers) "authorization"
        = some (generate_signature "key" c5Body) from rfl]
    dsimp only
    rw [if_pos rfl]
    rfl
  · decide

/-! ## Claim C6 -/

/-- Whether a value is anything but JSON null / Python `None`. -/
def isNotNull : JValue → Bool
  | .jnull => false
  | _ => true

theorem dlookupAppend {α : Type} (l1 l2 : List (String × α)) (k : String) :
    dlookup (l1 ++ l2) k = (dlookup l1 k <|> dlookup l2 k) := by
  induction l1 with
  | nil => simp [dlookup]
  | cons x xs ih =>
    obtain ⟨xk, xv⟩ := x
    by_cases h : xk = k <;> simp [dlookup, h, ih]

theorem dlookup_optField {α : Type} (k k' : String) (enc : α → JValue) (o : Option α) :
    dlookup (optField k enc o) k' = if k = k' then o.map enc else none := by
  cases o <;> by_cases h : k = k' <;> simp [optField, dlookup, h]

theorem optField_keys {α : Type} (k : String) (enc : α → JValue) (o : Option α) :
    (optField k enc o).map Prod.fst = o.toList.map (fun _ => k) := by
  cases o <;> rfl

theorem optField_all {α : Type} (p : String × JValue → Bool) (k : String)
    (enc : α → JValue) (o : Option α) (h : ∀ v, p (k, enc v) = true) :
    (optField k enc o).all p = true := by
  cases o with
  | none => rfl
  | some v => simp [optField, h v]

/-- **C6.** The field map `create_invoice` signs and sends consists of
exactly `orderId`, `shopId` and `sum` plus those optional fields the
caller actually supplied — an omitted optional argument contributes no
entry at all (in particular no null entry) — closed by a `signature`
field whose value is the signature computed over exactly the preceding
field set (the map without the signature field itself). -/
theorem claim_C6 (secret : String) (amount : Int) (shop_id order_id : String)
    (args : CreateInvoiceArgs) :
    signedInvoiceFields secret amount shop_id order_id args
      = buildInvoiceFields amount shop_id order_id args
        ++ [("signature", .jstr (generate_signature secret
              (buildInvoiceFields amount shop_id order_id args)))] ∧
    (signedInvoiceFields secret amount shop_id order_id args).map Prod.fst
      = ["orderId", "shopId", "sum"]
        ++ args.custom_field.toList.map (fun _ => "customFields")
        ++ args.comment.toList.map (fun _ => "comment")
        ++ args.webhook_url.toList.map (fun _ => "hookUrl")
        ++ args.fail_url.toList.map (fun _ => "failUrl")
        ++ args.success_url.toList.map (fun _ => "successUrl")
        ++ args.expire.toList.map (fun _ => "expire")
        ++ args.include_service.toList.map (fun _ => "includeService")
        ++ args.exclude_service.toList.map (fun _ => "excludeService")
        ++ ["signature"] ∧
    dlookup (buildInvoiceFields amount shop_id order_id args) "orderId"
      = some (.jstr order_id) ∧
    dlookup (buildInvoiceFields amount shop_id order_id args) "shopId"
      = some (.jstr shop_id) ∧
    dlookup (buildInvoiceFields amount shop_id order_id args) "sum"
      = some (.jint amount) ∧
    dlookup (buildInvoiceFields amount shop_id order_id args) "customFields"
      = args.custom_field.map .jstr ∧
    dlookup (buildInvoiceFields amount shop_id order_id args) "comment"
      = args.comment.map .jstr ∧
    dlookup (buildInvoiceFields amount shop_id order_id args) "hookUrl"
      = args.webhook_url.map .jstr ∧
    dlookup (buildInvoiceFields amount shop_id order_id args) "failUrl"
      = args.fail_url.map .jstr ∧
    dlookup (buildInvoiceFields amount shop_id order_id args) "successUrl"
      = args.success_url.map .jstr ∧
    dlookup (buildInvoiceFields amount shop_id order_id args) "expire"
      = args.expire.map .jint ∧
    dlookup (buildInvoiceFields amount shop_id order_id args) "includeService"
      = args.include_service.map .jarrs ∧
    dlookup (buildInvoiceFields amount shop_id order_id args) "excludeService"
      = args.exclude_service.map .jarrs ∧
    ((signedInvoiceFields secret amount shop_id order_id args).all
      fun kv => isNotNull kv.2) = true ∧
    dlookup (signedInvoiceFields secret amount shop_id order_id args) "signature"
      = some (.jstr (generate_signature secret
          (buildInvoiceFields amount shop_id order_id args))) := by
  refine ⟨rfl, ?_, ?_, ?_, ?_, ?_, ?_, ?_, ?_, ?_, ?_, ?_, ?_, ?_, ?_⟩
  · simp [signedInvoiceFields, buildInvoiceFields, optField_keys, List.map_append,
      List.append_assoc]
  · simp [buildInvoiceFields, dlookupAppend, dlookup]
  · simp [buildInvoiceFields, dlookupAppend, dlookup]
  · simp [buildInvoiceFields, dlookupAppend, dlookup]
  · simp [buildInvoiceFields, dlookupAppend, dlookup, dlookup_optField]
  · simp [buildInvoiceFields, dlookupAppend, dlookup, dlookup_optField]
  · simp [buildInvoiceFields, dlookupAppend, dlookup, dlookup_optField]
  · simp [buildInvoiceFields, dlookupAppend, dlookup, dlookup_optField]
  · simp [buildInvoiceFields, dlookupAppend, dlookup, dlookup_optField]
  · simp [buildInvoiceFields, dlookupAppend, dlookup, dlookup_optField]
  · simp [buildInvoiceFields, dlookupAppend, dlookup, dlookup_optField]
  · simp [buildInvoiceFields, dlookupAppend, dlookup, dlookup_optField]
  · simp only [signedInvoiceFields]
    rw [List.all_append]
    rw [Bool.and_eq_true]
    refine ⟨?_, rfl⟩
    simp only [buildInvoiceFields]
    repeat rw [List.all_append]
    simp only [Bool.and_eq_true]
    repeat' apply And.intro
    all_goals first
      | rfl
      | exact optField_all _ _ _ _ (fun v => rfl)
  · simp [signedInvoiceFields, buildInvoiceFields, dlookupAppend, dlookup, dlookup_optField]

/-! ## Claim C9 -/

theorem string_toList_append (s t : String) : (s ++ t).toList = s.toList ++ t.toList := by
  simp [String.toList, String.data_append]

theorem ofNat_digit_isDigit (d : Nat) (h : d < 10) :
    (Char.ofNat (48 + d)).isDigit = true := by
  interval_cases d <;> decide

theorem natDigitsAux_all_digits : ∀ fuel n, ((natDigitsAux fuel n).all Char.isDigit) = true
  | fuel, 0 => by cases fuel <;> rfl
  | 0, _ + 1 => rfl
  | fuel + 1, n + 1 => by
    rw [natDigitsAux, List.all_cons,
      ofNat_digit_isDigit ((n + 1) % 10) (Nat.mod_lt _ (by norm_num)),
      natDigitsAux_all_digits fuel ((n + 1) / 10)]
    rfl

theorem natDigitsAux_length_le : ∀ fuel n k, n < 10 ^ k → (natDigitsAux fuel n).length ≤ k
  | _, 0, _, _ => by simp [natDigitsAux]
  | 0, _ + 1, _, _ => by simp [natDigitsAux]
  | fuel + 1, n + 1, k, h => by
    match k, h with
    | 0, h => exact absurd h (by simp)
    | k + 1, h =>
      rw [natDigitsAux, List.length_cons]
      have hdiv : (n + 1) / 10 < 10 ^ k := by
        rw [Nat.div_lt_iff_lt_mul (by norm_num)]
        calc n + 1 < 10 ^ (k + 1) := h
        _ = 10 ^ k * 10 := by ring
      exact Nat.succ_le_succ (natDigitsAux_length_le fuel ((n + 1) / 10) k hdiv)

theorem natDigitsAux_length_ge : ∀ fuel n k, 10 ^ k ≤ n → n ≤ fuel →
    k + 1 ≤ (natDigitsAux fuel n).length
  | _, 0, k, hk, _ => absurd (Nat.le_zero.mp hk) (Nat.pos_iff_ne_zero.mp (Nat.pos_pow_of_pos k (by norm_num)))
  | 0, n + 1, _, _, hf => absurd hf (by omega)
  | fuel + 1, n + 1, 0, _, _ => by
    rw [natDigitsAux, List.length_cons]
    omega
  | fuel + 1, n + 1, k + 1, hk, hf => by
    rw [natDigitsAux, List.length_cons]
    have hge : 10 ^ k ≤ (n + 1) / 10 := by
      rw [Nat.le_div_iff_mul_le (by norm_num)]
      calc 10 ^ k * 10 = 10 ^ (k + 1) := by ring
      _ ≤ n + 1 := hk
    have hfl : (n + 1) / 10 ≤ fuel := by
      have := Nat.div_lt_self (Nat.succ_pos n) (by norm_num : 1 < 10)
      omega
    exact Nat.succ_le_succ (natDigitsAux_length_ge fuel ((n + 1) / 10) k hge hfl)

theorem natRepr_all_digits (n : Nat) : ((natRepr n).toList.all Char.isDigit) = true := by
  unfold natRepr natDigitsRevAux
  split
  · decide
  · show ((natDigitsAux n n).reverse.all Char.isDigit) = true
    rw [List.all_reverse]
    exact natDigitsAux_all_digits n n

theorem natRepr_length_le (n k : Nat) (h : n < 10 ^ k) (hk : 0 < k) :
    (natRepr n).length ≤ k := by
  unfold natRepr natDigitsRevAux
  split
  · exact hk
  · show (natDigitsAux n n).reverse.length ≤ k
    rw [List.length_reverse]
    exact natDigitsAux_length_le n n k h

theorem natRepr_length_ge (n k : Nat) (h : 10 ^ k ≤ n) :
    k + 1 ≤ (natRepr n).length := by
  unfold natRepr natDigitsRevAux
  split
  · next h0 =>
    subst h0
    have : 10 ^ k = 0 := Nat.le_zero.mp h
    exact absurd this (Nat.pos_iff_ne_zero.mp (Nat.pos_pow_of_pos k (by norm_num)))
  · show k + 1 ≤ (natDigitsAux n n).reverse.length
    rw [List.length_reverse]
    exact natDigitsAux_length_ge n n k h (Nat.le_refl n)

theorem padZeros_length (w : Nat) (s : String) (h : s.length ≤ w) :
    (padZeros w s).length = w := by
  unfold padZeros
  rw [String.length_append]
  show (List.replicate (w - s.length) '0').length + s.length = w
  rw [List.length_replicate]
  omega

theorem padZeros_all_digits (w : Nat) (s : String)
    (h : (s.toList.all Char.isDigit) = true) :
    ((padZeros w s).toList.all Char.isDigit) = true := by
  unfold padZeros
  rw [string_toList_append, List.all_append, h]
  simp

theorem digitsRun_append : ∀ (cs rest : List Char), (cs.all Char.isDigit) = true →
    digitsRun cs.length (cs ++ rest) = some rest
  | [], rest, _ => rfl
  | c :: cs, rest, h => by
    rw [List.all_cons, Bool.and_eq_true] at h
    show digitsRun (cs.length + 1) (c :: (cs ++ rest)) = some rest
    rw [digitsRun, if_pos h.1]
    exact digitsRun_append cs rest h.2

/-- The pattern matcher accepts any string of the shape
`8 digits, '-', 4 digits, '-', 6 digits, '-', 4 digits`. -/
theorem matchesOrderIdPattern_segments (a b c d : String)
    (ha : (a.toList.all Char.isDigit) = true) (hla : a.toList.length = 8)
    (hb : (b.toList.all Char.isDigit) = true) (hlb : b.toList.length = 4)
    (hc : (c.toList.all Char.isDigit) = true) (hlc : c.toList.length = 6)
    (hd : (d.toList.all Char.isDigit) = true) (hld : d.toList.length = 4) :
    matchesOrderIdPattern (a ++ "-" ++ b ++ "-" ++ c ++ "-" ++ d) = true := by
  have hsplit : (a ++ "-" ++ b ++ "-" ++ c ++ "-" ++ d).toList
      = a.toList ++ '-' :: (b.toList ++ '-' :: (c.toList ++ '-' :: d.toList)) := by
    simp [string_toList_append]
  have h1 := digitsRun_append a.toList ('-' :: (b.toList ++ '-' :: (c.toList ++ '-' :: d.toList))) ha
  rw [hla] at h1
  have h2 := digitsRun_append b.toList ('-' :: (c.toList ++ '-' :: d.toList)) hb
  rw [hlb] at h2
  have h3 := digitsRun_append c.toList ('-' :: d.toList) hc
  rw [hlc] at h3
  have h4 := digitsRun_append d.toList [] hd
  rw [hld, List.append_nil] at h4
  unfold matchesOrderIdPattern
  rw [hsplit]
  simp only [String.toList] at h1 h2 h3 h4 ⊢
  simp [h1, h2, h3, h4, expectChar]

/-- **C9.** For every current local date-time — a valid Python `datetime`
with a four-digit year, which `datetime` caps at 9999 — and every pair of
`randint(0, 9999)` draws, the generated order id is the 8-digit local
date, a zero-padded 4-digit random integer, the 6-digit local time, and a
second zero-padded 4-digit random integer, joined by hyphens, and hence
matches `\d{8}-\d{4}-\d{6}-\d{4}`. -/
theorem claim_C9 (now : PyDateTime) (r1 r2 : Nat)
    (hy1 : 1000 ≤ now.year) (hy2 : now.year ≤ 9999)
    (hmo : now.month ≤ 12) (hda : now.day ≤ 31) (hho : now.hour ≤ 23)
    (hmi : now.minute ≤ 59) (hse : now.second ≤ 59)
    (hr1 : r1 ≤ 9999) (hr2 : r2 ≤ 9999) :
    generate_random_order_id now r1 r2 =
      strftimeYmd now ++ "-" ++ padZeros 4 (natRepr r1) ++ "-" ++
        strftimeHMS now ++ "-" ++ padZeros 4 (natRepr r2) ∧
    matchesOrderIdPattern (generate_random_order_id now r1 r2) = true := by
  refine ⟨rfl, ?_⟩
  have hy : (natRepr now.year).length = 4 := by
    have hle := natRepr_length_le now.year 4 (by omega) (by norm_num)
    have hge := natRepr_length_ge now.year 3 (by simpa using hy1)
    omega
  have hpad2 : ∀ m : Nat, m ≤ 99 → (padZeros 2 (natRepr m)).length = 2 := fun m hm =>
    padZeros_length 2 _ (natRepr_length_le m 2 (by omega) (by norm_num))
  have hpad4 : ∀ m : Nat, m ≤ 9999 → (padZeros 4 (natRepr m)).length = 4 := fun m hm =>
    padZeros_length 4 _ (natRepr_length_le m 4 (by omega) (by norm_num))
  show matchesOrderIdPattern (strftimeYmd now ++ "-" ++ padZeros 4 (natRepr r1) ++ "-" ++
    strftimeHMS now ++ "-" ++ padZeros 4 (natRepr r2)) = true
  refine matchesOrderIdPattern_segments _ _ _ _ ?_ ?_ ?_ ?_ ?_ ?_ ?_ ?_
  · unfold strftimeYmd
    rw [string_toList_append, string_toList_append, List.all_append, List.all_append,
      natRepr_all_digits, padZeros_all_digits _ _ (natRepr_all_digits _),
      padZeros_all_digits _ _ (natRepr_all_digits _)]
    rfl
  · show (strftimeYmd now).length = 8
    unfold strftimeYmd
    rw [String.length_append, String.length_append, hy,
      hpad2 now.month (by omega), hpad2 now.day (by omega)]
  · exact padZeros_all_digits _ _ (natRepr_all_digits _)
  · exact hpad4 r1 hr1
  · unfold strftimeHMS
    rw [string_toList_append, string_toList_append, List.all_append, List.all_append,
      padZeros_all_digits _ _ (natRepr_all_digits _),
      padZeros_all_digits _ _ (natRepr_all_digits _),
      padZeros_all_digits _ _ (natRepr_all_digits _)]
    rfl
  · show (strftimeHMS now).length = 6
    unfold strftimeHMS
    rw [String.length_append, String.length_append,
      hpad2 now.hour (by omega), hpad2 now.minute (by omega), hpad2 now.second (by omega)]
  · exact padZeros_all_digits _ _ (natRepr_all_digits _)
  · exact hpad4 r2 hr2

/-- Witness for C9 on a concrete current date-time and random pair. -/
theorem claim_C9_witness :
    matchesOrderIdPattern (generate_random_order_id ⟨2026, 10, 12, 13, 22, 5⟩ 7 9305) = true :=
  (claim_C9 ⟨2026, 10, 12, 13, 22, 5⟩ 7 9305 (by decide) (by decide) (by decide)
    (by decide) (by decide) (by decide) (by decide) (by decide) (by decide)).2

/-! ## Claim C10 -/

/-- **C10.** `handle_webhook` never mutates its arguments.  In the
state-threading view — where every operation the Python body performs on
the two argument dicts takes the state and returns it, and a mutating
operation would have to return a changed state — the final state equals
the initial state for every input, whether the call returns or raises:
every performed operation is a read (`items()` iteration, `[]`, `.get`),
and the lowercase header normalization builds a fresh dict.  The computed
outcome agrees with the direct model `handle_webhook`. -/
theorem claim_C10 (secret : String) (body : FieldMap) (headers : List (String × String)) :
    (handle_webhook_st secret (body, headers)).2 = (body, headers) ∧
    (handle_webhook_st secret (body, headers)).1 = handle_webhook secret body headers := by
  unfold handle_webhook_st handle_webhook whBind whPure readHeaderItems readBodyItems
    readBodyLookup
  dsimp only
  rw [show (List.foldl (fun acc kv => dinsert acc (asciiLower kv.1) kv.2) [] headers)
      = lowerHeaders headers from rfl]
  cases hlk : dlookup (lowerHeaders headers) "authorization"
  case none => exact ⟨rfl, rfl⟩
  case some server =>
  dsimp only
  by_cases hsig : server = generate_signature secret body
  · simp only [if_pos hsig]
    unfold webhookExtract computePayTime
    cases hpf : dlookup body "payed" with
    | none => exact ⟨rfl, rfl⟩
    | some v => cases v <;> exact ⟨rfl, rfl⟩
  · simp only [if_neg hsig]
    refine ⟨?_, ?_⟩ <;> first
      | rfl
      | trivial
